import Mathlib

/-!
Shallow embedding of `src/static/js/app.js` (Docker network mapper client).

JavaScript values are modelled as follows: a JSON payload field that may be
absent is an `Option`; JS truthiness of the `error` field (`!data.error`)
treats both an absent field and the empty string as "no error"; a JS
`TypeError` raised by accessing a property of `undefined` (for instance
`Object.entries(data.containers)` when `containers` is missing) is modelled
by returning `none` from the corresponding function.  The vis.js DataSets
`allNodes`/`allEdges` are modelled by the `Mirror` structure, and the calls
`clear`/`add` issued against them by the `Op` operation list that
`updateVisualization` emits, in the order the source issues them.
-/

namespace DockerMapper

/-- A container entry of the payload's `containers` mapping. -/
structure Container where
  name : String
  image : String
  status : String
deriving DecidableEq, Repr

/-- An entry of the payload's `connections` array. -/
structure Conn where
  id : String
  source : String
  target : String
  network : String
deriving DecidableEq, Repr

/-- The payload's `summary` object; each counter may be absent. -/
structure Summary where
  total_containers : Option Nat
  running_containers : Option Nat
  total_networks : Option Nat
  total_connections : Option Nat
deriving DecidableEq, Repr

/-- A pull response body or push message body.  Every field may be absent;
`containers` is the JSON object keyed by container id, kept as an
association list in key order. -/
structure Payload where
  docker_available : Option Bool
  error : Option String
  containers : Option (List (String × Container))
  connections : Option (List Conn)
  summary : Option Summary
deriving DecidableEq, Repr

/-- A vis.js node record as built by `updateVisualization`. -/
structure VisNode where
  id : String
  label : String
  background : String
  border : String
  shape : String
deriving DecidableEq, Repr

/-- A vis.js edge record as built by `updateVisualization`. -/
structure VisEdge where
  id : String
  from' : String
  to' : String
  label : String
  arrows : String
deriving DecidableEq, Repr

/-- One operation issued against the vis.js DataSets. -/
inductive Op where
  | clearNodes : Op
  | clearEdges : Op
  | addNode : VisNode → Op
  | addEdge : VisEdge → Op
deriving DecidableEq, Repr

/-- The renderer's local replica: the contents of `allNodes` and `allEdges`. -/
structure Mirror where
  nodes : List VisNode
  edges : List VisEdge
deriving DecidableEq, Repr

/-- The four summary figures written to the stat elements. -/
structure SummaryStats where
  statContainers : Nat
  statRunning : Nat
  statNetworks : Nat
  statConnections : Nat
deriving DecidableEq, Repr

/-- The client's observable state: the `dockerAvailable` global, whether the
`noDataOverlay` element has the `show` class, whether the connection-status
indicator shows connected, the DataSet mirror, the rendered container list,
the displayed summary stats, and the delay (ms) of the fit-to-view timeout
scheduled by the most recent reconciliation (`none` when it scheduled none). -/
structure AppState where
  dockerAvailable : Bool
  overlayShown : Bool
  connected : Bool
  mirror : Mirror
  containerList : List (String × Container)
  stats : SummaryStats
  pendingFitDelay : Option Nat
deriving DecidableEq, Repr

/-- The node record built for one entry of `data.containers`
(`app.js` lines 62-72). -/
def nodeOf (id : String) (container : Container) : VisNode :=
  let isRunning := container.status == "running"
  { id := id
  , label := "📦 " ++ container.name ++ "\n🆔 " ++ id.take 8 ++ "\n"
      ++ (if isRunning then "🟢" else "🔴") ++ " " ++ container.status
  , background := if isRunning then "#dcfce7" else "#fecaca"
  , border := if isRunning then "#16a34a" else "#dc2626"
  , shape := "box" }

/-- The edge record built for one entry of `data.connections`
(`app.js` lines 74-80). -/
def edgeOf (conn : Conn) : VisEdge :=
  { id := conn.id
  , from' := conn.source
  , to' := conn.target
  , label := " " ++ conn.network ++ " "
  , arrows := "to" }

/-- `updateVisualization(data)` (`app.js` lines 61-91): builds the node and
edge arrays, then clears both DataSets and re-adds everything; returns the
operation sequence in the order issued and the delay of the `setTimeout`
scheduling `network.fit` (500 ms when the node array is non-empty).
Returns `none` when `data.containers` or `data.connections` is absent: in
the source, `Object.entries(data.containers)` or `data.connections.map`
then throws a `TypeError` before any DataSet is touched. -/
def updateVisualization (data : Payload) : Option (List Op × Option Nat) :=
  match data.containers, data.connections with
  | some containers, some connections =>
    let nodes := containers.map fun x => nodeOf x.1 x.2
    let edges := connections.map edgeOf
    some ([Op.clearNodes, Op.clearEdges]
        ++ (if nodes.length > 0 then nodes.map Op.addNode else [])
        ++ (if edges.length > 0 then edges.map Op.addEdge else []),
      if nodes.length > 0 then some 500 else none)
  | _, _ => none

/-- Effect of one DataSet operation on the mirror. -/
def applyOp (m : Mirror) : Op → Mirror
  | Op.clearNodes => { m with nodes := [] }
  | Op.clearEdges => { m with edges := [] }
  | Op.addNode n => { m with nodes := m.nodes ++ [n] }
  | Op.addEdge e => { m with edges := m.edges ++ [e] }

/-- Effect of an operation sequence on the mirror, applied left to right. -/
def applyOps (m : Mirror) (ops : List Op) : Mirror :=
  ops.foldl applyOp m

/-- The mirror after `updateVisualization(data)` has run against mirror `m`,
or `none` when it throws. -/
def applySnapshotMirror (m : Mirror) (data : Payload) : Option Mirror :=
  (updateVisualization data).map fun r => applyOps m r.1

/-- `updateSummary(summary)` (`app.js` lines 94-108): each counter read as
`summary.x || 0`.  Passing an absent `summary` (i.e. `updateSummary(undefined)`)
throws a `TypeError` on the first property access, modelled by `none`. -/
def updateSummary (summary : Option Summary) : Option SummaryStats :=
  match summary with
  | none => none
  | some s => some
    { statContainers := s.total_containers.getD 0
    , statRunning := s.running_containers.getD 0
    , statNetworks := s.total_networks.getD 0
    , statConnections := s.total_connections.getD 0 }

/-- `updateContainerList(containers)` (`app.js` lines 111-141): renders the
list; `Object.keys(undefined)` throws, modelled by `none`. -/
def updateContainerList (containers : Option (List (String × Container))) :
    Option (List (String × Container)) :=
  containers

/-- JS truthiness of `data.error`: absent and the empty string are falsy. -/
def errTruthy : Option String → Bool
  | none => false
  | some s => s != ""

/-- `data.docker_available !== false` (`app.js` lines 41 and 217). -/
def availOf (data : Payload) : Bool :=
  data.docker_available != some false

/-- `updateUIForDockerStatus()` (`app.js` lines 144-151): the overlay gets
the `show` class exactly when `dockerAvailable` is false. -/
def updateUIForDockerStatus (st : AppState) : AppState :=
  { st with overlayShown := !st.dockerAvailable }

/-- `showNoDataOverlay()` (`app.js` lines 157-159). -/
def showNoDataOverlay (st : AppState) : AppState :=
  { st with overlayShown := true }

/-- The four statements shared verbatim by the available branch of `loadData`
(lines 46-49) and of the push handler (lines 221-224):
`updateVisualization; updateSummary; updateContainerList; hideNoDataOverlay`.
The returned Bool is true when one of them throws, in which case the
statements after the throwing one have not run but earlier effects persist. -/
def applySnapshotBody (st : AppState) (data : Payload) : AppState × Bool :=
  match updateVisualization data with
  | none => (st, true)
  | some (ops, fit) =>
    let st := { st with mirror := applyOps st.mirror ops, pendingFitDelay := fit }
    match updateSummary data.summary with
    | none => (st, true)
    | some stats =>
      let st := { st with stats := stats }
      match updateContainerList data.containers with
      | none => (st, true)
      | some lst => ({ st with containerList := lst, overlayShown := false }, false)

/-- `loadData()` (`app.js` lines 38-58).  `result` is `none` on transport
failure of the pull request; every exception, including a `TypeError` thrown
inside the available branch, lands in the same `catch`, which shows the
error overlay and leaves everything else as it was. -/
def loadData (st : AppState) (result : Option Payload) : AppState :=
  match result with
  | none => showNoDataOverlay st
  | some data =>
    let st1 := updateUIForDockerStatus { st with dockerAvailable := availOf data }
    if availOf data && !errTruthy data.error then
      let r := applySnapshotBody st1 data
      if r.2 then showNoDataOverlay r.1 else r.1
    else
      showNoDataOverlay st1

/-- The `ws.onmessage` handler (`app.js` lines 215-226).  Unlike `loadData`
it has no `else` branch and no `catch`: the returned Bool is true when an
exception escaped the handler. -/
def wsOnMessage (st : AppState) (data : Payload) : AppState × Bool :=
  let st1 := updateUIForDockerStatus { st with dockerAvailable := availOf data }
  if availOf data && !errTruthy data.error then
    applySnapshotBody st1 data
  else
    (st1, false)

/-- `updateConnectionStatus(connected)` (`app.js` lines 235-243). -/
def updateConnectionStatus (st : AppState) (connected : Bool) : AppState :=
  { st with connected := connected }

/-- The `ws.onopen` handler (`app.js` line 214). -/
def wsOnOpen (st : AppState) : AppState :=
  updateConnectionStatus st true

/-- The `ws.onclose` handler (`app.js` lines 227-230): indicator to
disconnected and `setTimeout(connectWebSocket, 5000)`; the second component
is the delay of the scheduled reconnect attempt. -/
def wsOnClose (st : AppState) : AppState × Option Nat :=
  (updateConnectionStatus st false, some 5000)

/-- The `ws.onerror` handler (`app.js` line 231): indicator to disconnected
only; no reconnect is scheduled by this handler. -/
def wsOnError (st : AppState) : AppState × Option Nat :=
  (updateConnectionStatus st false, none)

/-- The interval of the periodic pull timer (`app.js` line 262). -/
def pollIntervalMs : Nat := 30000

/-- One tick of `setInterval(() => dockerAvailable && loadData(), 30000)`
(`app.js` line 262): the Bool records whether a pull request was issued;
`result` is the outcome of that pull when it is issued. -/
def intervalTick (st : AppState) (result : Option Payload) : AppState × Bool :=
  if st.dockerAvailable then (loadData st result, true) else (st, false)

/-! ### Helper lemmas about the operation sequence -/

theorem if_length_map {α β : Type} (l : List α) (f : α → β) :
    (if l.length > 0 then l.map f else []) = l.map f := by
  cases l <;> simp

theorem applyOps_append (m : Mirror) (l1 l2 : List Op) :
    applyOps m (l1 ++ l2) = applyOps (applyOps m l1) l2 := by
  simp [applyOps, List.foldl_append]

theorem applyOps_addNodes (m : Mirror) (ns : List VisNode) :
    applyOps m (ns.map Op.addNode) = { m with nodes := m.nodes ++ ns } := by
  induction ns generalizing m with
  | nil => simp [applyOps]
  | cons n rest ih =>
    show applyOps (applyOp m (Op.addNode n)) (rest.map Op.addNode) = _
    rw [ih]
    simp [applyOp, List.append_assoc]

theorem applyOps_addEdges (m : Mirror) (es : List VisEdge) :
    applyOps m (es.map Op.addEdge) = { m with edges := m.edges ++ es } := by
  induction es generalizing m with
  | nil => simp [applyOps]
  | cons e rest ih =>
    show applyOps (applyOp m (Op.addEdge e)) (rest.map Op.addEdge) = _
    rw [ih]
    simp [applyOp, List.append_assoc]

/-- Closed form of `updateVisualization` on a payload whose `containers` and
`connections` fields are present. -/
theorem updateVisualization_eq (d : Option Bool) (e : Option String)
    (cs : List (String × Container)) (conns : List Conn) (s : Option Summary) :
    updateVisualization ⟨d, e, some cs, some conns, s⟩ =
      some ([Op.clearNodes, Op.clearEdges]
          ++ (cs.map fun x => Op.addNode (nodeOf x.1 x.2))
          ++ (conns.map fun c => Op.addEdge (edgeOf c)),
        if cs.length > 0 then some 500 else none) := by
  show some ([Op.clearNodes, Op.clearEdges]
      ++ (if (cs.map fun x => nodeOf x.1 x.2).length > 0
          then (cs.map fun x => nodeOf x.1 x.2).map Op.addNode else [])
      ++ (if (conns.map edgeOf).length > 0
          then (conns.map edgeOf).map Op.addEdge else []),
    if (cs.map fun x => nodeOf x.1 x.2).length > 0 then some 500 else none) = _
  rw [if_length_map, if_length_map, List.map_map, List.map_map, List.length_map]
  rfl

/-- Applying the full clear-then-re-add sequence to any mirror yields exactly
the snapshot-derived nodes and edges. -/
theorem applyOps_dispatch (m : Mirror) (cs : List (String × Container))
    (conns : List Conn) :
    applyOps m ([Op.clearNodes, Op.clearEdges]
        ++ (cs.map fun x => Op.addNode (nodeOf x.1 x.2))
        ++ (conns.map fun c => Op.addEdge (edgeOf c)))
      = { nodes := cs.map fun x => nodeOf x.1 x.2, edges := conns.map edgeOf } := by
  rw [show (cs.map fun x => Op.addNode (nodeOf x.1 x.2))
        = (cs.map fun x => nodeOf x.1 x.2).map Op.addNode by rw [List.map_map]; rfl,
      show (conns.map fun c => Op.addEdge (edgeOf c))
        = (conns.map edgeOf).map Op.addEdge by rw [List.map_map]; rfl]
  rw [applyOps_append, applyOps_append, applyOps_addNodes, applyOps_addEdges]
  simp [applyOps, applyOp, List.foldl]

/-! ### Concrete fixtures -/

def cWeb : Container := { name := "web", image := "nginx", status := "running" }

def cDb : Container := { name := "db", image := "postgres", status := "running" }

def nWeb : VisNode := nodeOf "aaaa1111bbbb" cWeb

def pWeb : Payload :=
  { docker_available := some true, error := none
  , containers := some [("aaaa1111bbbb", cWeb)], connections := some []
  , summary := some { total_containers := some 1, running_containers := some 1
                    , total_networks := some 0, total_connections := some 0 } }

def mWeb : Mirror := { nodes := [nWeb], edges := [] }

def cnWebDb : Conn :=
  { id := "edge1", source := "aaaa1111bbbb", target := "cccc2222dddd"
  , network := "app-net" }

def pTwo : Payload :=
  { docker_available := some true, error := none
  , containers := some [("aaaa1111bbbb", cWeb), ("cccc2222dddd", cDb)]
  , connections := some [cnWebDb]
  , summary := some { total_containers := some 2, running_containers := some 2
                    , total_networks := some 1, total_connections := some 1 } }

def opsTwo : List Op :=
  [Op.clearNodes, Op.clearEdges, Op.addNode (nodeOf "aaaa1111bbbb" cWeb),
   Op.addNode (nodeOf "cccc2222dddd" cDb), Op.addEdge (edgeOf cnWebDb)]

/-! ### Claim theorems -/

/-- C1, counterexample: reconciliation is not a minimal diff.  The mirror
`mWeb` holds exactly the node the snapshot `pWeb` derives (the entry is
identical in M and S), yet the emitted operation sequence begins with
`clearNodes` — which removes that unchanged entry — and then re-adds the very
same node, so an entry identical in M and S is removed and re-added. -/
theorem diff_minimality_cex :
    mWeb.nodes = [nodeOf "aaaa1111bbbb" cWeb] ∧
    updateVisualization pWeb
      = some ([Op.clearNodes, Op.clearEdges, Op.addNode nWeb], some 500) ∧
    applyOp mWeb Op.clearNodes = { nodes := [], edges := [] } ∧
    Op.addNode nWeb ∈ [Op.clearNodes, Op.clearEdges, Op.addNode nWeb] := by
  refine ⟨rfl, rfl, rfl, ?_⟩
  simp

/-- C1, amended: reconciliation is a wholesale replacement, not a minimal
diff.  For every payload whose `containers` and `connections` fields are
present, the emitted operation sequence is exactly: clear all nodes, clear
all edges, then one add per snapshot container (in mapping order) and one
add per snapshot connection — every prior entry, changed or not, is removed
and every snapshot entry re-added — and applying it to any prior mirror
yields exactly the snapshot-derived nodes and edges. -/
theorem reconcile_wholesale (d : Option Bool) (e : Option String)
    (cs : List (String × Container)) (conns : List Conn) (s : Option Summary)
    (m : Mirror) :
    updateVisualization ⟨d, e, some cs, some conns, s⟩ =
      some ([Op.clearNodes, Op.clearEdges]
          ++ (cs.map fun x => Op.addNode (nodeOf x.1 x.2))
          ++ (conns.map fun c => Op.addEdge (edgeOf c)),
        if cs.length > 0 then some 500 else none) ∧
    applyOps m ([Op.clearNodes, Op.clearEdges]
        ++ (cs.map fun x => Op.addNode (nodeOf x.1 x.2))
        ++ (conns.map fun c => Op.addEdge (edgeOf c)))
      = { nodes := cs.map fun x => nodeOf x.1 x.2, edges := conns.map edgeOf } :=
  ⟨updateVisualization_eq d e cs conns s, applyOps_dispatch m cs conns⟩

/-- C4: applying any available snapshot (with `containers` and `connections`
present) replaces the mirror wholesale: the resulting node list is exactly
the snapshot's containers mapping rendered one node per id, the edge list is
exactly the snapshot's connections sequence rendered, the result does not
depend on the prior mirror, applying the same snapshot twice yields the same
mirror as applying it once, and an empty snapshot leaves the mirror empty. -/
theorem snapshot_replaces_mirror (d : Option Bool) (e : Option String)
    (cs : List (String × Container)) (conns : List Conn) (s : Option Summary)
    (m m2 : Mirror) :
    applySnapshotMirror m ⟨d, e, some cs, some conns, s⟩
      = some { nodes := cs.map fun x => nodeOf x.1 x.2, edges := conns.map edgeOf } ∧
    applySnapshotMirror m ⟨d, e, some cs, some conns, s⟩
      = applySnapshotMirror m2 ⟨d, e, some cs, some conns, s⟩ ∧
    applySnapshotMirror { nodes := cs.map fun x => nodeOf x.1 x.2
                        , edges := conns.map edgeOf } ⟨d, e, some cs, some conns, s⟩
      = some { nodes := cs.map fun x => nodeOf x.1 x.2, edges := conns.map edgeOf } ∧
    applySnapshotMirror m ⟨d, e, some [], some [], s⟩
      = some { nodes := [], edges := [] } := by
  have key : ∀ m' : Mirror, applySnapshotMirror m' ⟨d, e, some cs, some conns, s⟩
      = some { nodes := cs.map fun x => nodeOf x.1 x.2, edges := conns.map edgeOf } := by
    intro m'
    unfold applySnapshotMirror
    rw [updateVisualization_eq]
    simp only [Option.map_some']
    rw [applyOps_dispatch]
  refine ⟨key m, (key m).trans (key m2).symm, key _, ?_⟩
  unfold applySnapshotMirror
  rw [updateVisualization_eq]
  simp only [Option.map_some']
  rw [applyOps_dispatch]
  simp

/-- C10: in every successfully emitted operation sequence, all node
additions precede all edge additions: the sequence is the two clears, then a
block containing only node-adds, then a block containing only edge-adds, so
the render surface never receives an edge before the applied batch's nodes. -/
theorem nodes_before_edges (data : Payload) (ops : List Op) (fit : Option Nat)
    (h : updateVisualization data = some (ops, fit)) :
    ∃ nodeAdds edgeAdds,
      ops = [Op.clearNodes, Op.clearEdges] ++ nodeAdds ++ edgeAdds ∧
      (∀ op ∈ nodeAdds, ∃ n, op = Op.addNode n) ∧
      (∀ op ∈ edgeAdds, ∃ ed, op = Op.addEdge ed) := by
  obtain ⟨d, e, cso, conso, s⟩ := data
  cases cso with
  | none => cases conso <;> exact Option.noConfusion h
  | some cs =>
    cases conso with
    | none => exact Option.noConfusion h
    | some conns =>
      rw [updateVisualization_eq] at h
      injection h with h1
      injection h1 with hops hfit
      refine ⟨cs.map fun x => Op.addNode (nodeOf x.1 x.2),
              conns.map fun c => Op.addEdge (edgeOf c), hops.symm, ?_, ?_⟩
      · intro op hop
        rw [List.mem_map] at hop
        obtain ⟨x, hx, heq⟩ := hop
        exact ⟨nodeOf x.1 x.2, heq.symm⟩
      · intro op hop
        rw [List.mem_map] at hop
        obtain ⟨c, hc, heq⟩ := hop
        exact ⟨edgeOf c, heq.symm⟩

/-- Witness for C10: the operation sequence for a two-container snapshot
with one connection, with both node-adds before the edge-add. -/
theorem nodes_before_edges_witness :
    ∃ nodeAdds edgeAdds,
      opsTwo = [Op.clearNodes, Op.clearEdges] ++ nodeAdds ++ edgeAdds ∧
      (∀ op ∈ nodeAdds, ∃ n, op = Op.addNode n) ∧
      (∀ op ∈ edgeAdds, ∃ ed, op = Op.addEdge ed) :=
  nodes_before_edges pTwo opsTwo (some 500) rfl

def stIdle : AppState :=
  { dockerAvailable := true, overlayShown := false, connected := true
  , mirror := { nodes := [], edges := [] }, containerList := []
  , stats := { statContainers := 0, statRunning := 0, statNetworks := 0
             , statConnections := 0 }
  , pendingFitDelay := none }

def stFit : AppState :=
  { dockerAvailable := true, overlayShown := false, connected := true
  , mirror := mWeb, containerList := [("aaaa1111bbbb", cWeb)]
  , stats := { statContainers := 1, statRunning := 1, statNetworks := 0
             , statConnections := 0 }
  , pendingFitDelay := none }

def pNoContainers : Payload :=
  { docker_available := some true, error := none
  , containers := none, connections := some []
  , summary := some { total_containers := some 1, running_containers := some 1
                    , total_networks := some 0, total_connections := some 0 } }

/-- C9: the rendered node's attributes are a pure function of the
container's fields: the label is the fixed composition of name, the
8-character prefix of the id and the status icon with the status text, and
the colors are the success palette exactly when the status is `running` and
the failure palette for any other status. -/
theorem node_attrs_pure (id : String) (c : Container) :
    (nodeOf id c).label
      = "📦 " ++ c.name ++ "\n🆔 " ++ id.take 8 ++ "\n"
          ++ (if c.status == "running" then "🟢" else "🔴") ++ " " ++ c.status ∧
    ((nodeOf id c).background = if c.status == "running" then "#dcfce7" else "#fecaca") ∧
    ((nodeOf id c).border = if c.status == "running" then "#16a34a" else "#dc2626") ∧
    (((nodeOf id c).background = "#dcfce7" ∧ (nodeOf id c).border = "#16a34a")
      ↔ c.status = "running") := by
  refine ⟨rfl, rfl, rfl, ?_⟩
  by_cases hs : c.status = "running"
  · have hb : (c.status == "running") = true := by simp [hs]
    simp [nodeOf, hb, hs]
  · have hb : (c.status == "running") = false := by simp [hs]
    simp [nodeOf, hb, hs]

/-- C5, counterexample: the one-shot fit-to-view does fire on a
reconciliation whose prior mirror was already non-empty.  `stFit`'s mirror
already holds the snapshot's node, the resulting node count is non-zero, and
the handler still schedules the 500 ms fit-to-view. -/
theorem refit_cex :
    stFit.mirror.nodes ≠ [] ∧
    (wsOnMessage stFit pWeb).1.mirror.nodes ≠ [] ∧
    (wsOnMessage stFit pWeb).1.pendingFitDelay = some 500 := by
  refine ⟨?_, ?_, rfl⟩ <;> decide

/-- C5, amended: the fit-to-view with its fixed 500 ms settling delay is
scheduled on every reconciliation whose resulting node count is non-zero —
including routine refreshes whose prior mirror was already non-empty — and
on no reconciliation whose resulting node count is zero; the decision never
consults the prior mirror or any other prior state. -/
theorem refit_on_every_nonempty (st : AppState) (d : Option Bool)
    (e : Option String) (cs : List (String × Container)) (conns : List Conn)
    (s : Option Summary) :
    (∃ ops, updateVisualization ⟨d, e, some cs, some conns, s⟩
        = some (ops, if cs.length > 0 then some 500 else none)) ∧
    (applySnapshotBody st ⟨d, e, some cs, some conns, s⟩).1.pendingFitDelay
      = (if cs.length > 0 then some 500 else none) := by
  constructor
  · exact ⟨_, updateVisualization_eq d e cs conns s⟩
  · cases s with
    | none =>
      show (if (cs.map fun x => nodeOf x.1 x.2).length > 0
            then some 500 else (none : Option Nat))
          = if cs.length > 0 then some 500 else none
      rw [List.length_map]
    | some sum =>
      show (if (cs.map fun x => nodeOf x.1 x.2).length > 0
            then some 500 else (none : Option Nat))
          = if cs.length > 0 then some 500 else none
      rw [List.length_map]

/-- C6, counterexample: a partial snapshot missing only the optional
`containers` field is not replaced with safe defaults: `updateVisualization`
throws a `TypeError` (modelled by `none`), `updateSummary` throws when the
`summary` object itself is absent, and on the push path the exception
escapes the message handler. -/
theorem malformed_total_cex :
    updateVisualization pNoContainers = none ∧
    updateSummary none = none ∧
    (wsOnMessage stIdle pNoContainers).2 = true := ⟨rfl, rfl, rfl⟩

/-- C6, amended: counters missing inside a present `summary` object are
defaulted to zero, but a payload missing the `containers` or `connections`
object makes `updateVisualization` throw (modelled by `none`), and a missing
`summary` object makes `updateSummary` throw; on the push path the exception
escapes the handler, while on the pull path it is caught and the error
overlay is shown. -/
theorem summary_defaults_and_missing_objects (a b c d' : Option Nat)
    (st : AppState) (d : Option Bool) (e : Option String)
    (conns : Option (List Conn)) (cs : List (String × Container))
    (s : Option Summary) :
    updateSummary (some ⟨a, b, c, d'⟩)
      = some ⟨a.getD 0, b.getD 0, c.getD 0, d'.getD 0⟩ ∧
    updateSummary none = none ∧
    updateVisualization ⟨d, e, none, conns, s⟩ = none ∧
    updateVisualization ⟨d, e, some cs, none, s⟩ = none ∧
    (wsOnMessage st ⟨some true, none, none, conns, s⟩).2 = true ∧
    (loadData st (some ⟨some true, none, none, conns, s⟩)).overlayShown = true := by
  refine ⟨rfl, rfl, ?_, rfl, ?_, ?_⟩ <;> cases conns <;> rfl

/-- C7: a tick of the periodic timer issues a pull request if and only if
the last known availability flag is true at that tick; when the flag is
false the tick issues nothing and leaves the state untouched; the interval
is the fixed 30000 ms. -/
theorem timer_gated (st : AppState) (result : Option Payload) :
    (intervalTick st result).2 = st.dockerAvailable ∧
    intervalTick { st with dockerAvailable := false } result
      = ({ st with dockerAvailable := false }, false) ∧
    (st.dockerAvailable = true → intervalTick st result = (loadData st result, true)) ∧
    pollIntervalMs = 30000 := by
  refine ⟨?_, rfl, ?_, rfl⟩
  · cases h : st.dockerAvailable <;> simp [intervalTick, h]
  · intro h
    simp [intervalTick, h]

/-- C8, counterexample: the `onerror` handler updates the indicator to
disconnected but schedules no reconnect attempt — only the `onclose` handler
schedules the 5-second retry — refuting that an error event schedules a
reconnect after a fixed 5-second delay. -/
theorem ws_error_no_reconnect_cex :
    (wsOnError stFit).1.connected = false ∧
    (wsOnError stFit).2 = none := ⟨rfl, rfl⟩

/-- C8, amended: on a close event the indicator is set to disconnected and a
reconnect attempt is scheduled after the fixed 5000 ms delay; on an error
event the indicator is set to disconnected but the error handler itself
schedules no reconnect; on a successful open the indicator shows connected;
and none of the three handlers alters the mirror or the container list. -/
theorem ws_lifecycle (st : AppState) :
    (wsOnClose st).1.connected = false ∧
    (wsOnClose st).2 = some 5000 ∧
    (wsOnClose st).1.mirror = st.mirror ∧
    (wsOnClose st).1.containerList = st.containerList ∧
    (wsOnError st).1.connected = false ∧
    (wsOnError st).2 = none ∧
    (wsOnError st).1.mirror = st.mirror ∧
    (wsOnError st).1.containerList = st.containerList ∧
    (wsOnOpen st).connected = true ∧
    (wsOnOpen st).mirror = st.mirror ∧
    (wsOnOpen st).containerList = st.containerList :=
  ⟨rfl, rfl, rfl, rfl, rfl, rfl, rfl, rfl, rfl, rfl, rfl⟩

/-- On a payload with `containers`, `connections` and `summary` all present,
the shared available-branch body completes without throwing and ends by
removing the overlay. -/
theorem applySnapshotBody_wellformed (st : AppState) (d : Option Bool)
    (e : Option String) (cs : List (String × Container)) (conns : List Conn)
    (sum : Summary) :
    (applySnapshotBody st ⟨d, e, some cs, some conns, some sum⟩).1.overlayShown = false ∧
    (applySnapshotBody st ⟨d, e, some cs, some conns, some sum⟩).2 = false :=
  ⟨rfl, rfl⟩

def pPushError : Payload :=
  { docker_available := some true, error := some "daemon down"
  , containers := some [], connections := some []
  , summary := some { total_containers := some 0, running_containers := some 0
                    , total_networks := some 0, total_connections := some 0 } }

def stStale : AppState :=
  { stFit with overlayShown := true, dockerAvailable := false }

def pPushError2 : Payload :=
  { docker_available := none, error := some "oops"
  , containers := some [("aaaa1111bbbb", cWeb)], connections := some []
  , summary := some { total_containers := some 1, running_containers := some 1
                    , total_networks := some 0, total_connections := some 0 } }

def pDown : Payload :=
  { docker_available := some false, error := none
  , containers := some [], connections := some [], summary := none }

/-- C2, counterexample: a push message with `docker_available` not false but
a non-empty `error` field does NOT result in the overlay being shown: the
handler first removes the overlay because `docker_available !== false` and,
having no else branch, never calls `showNoDataOverlay`, so after processing
the overlay is hidden although the payload is not available. -/
theorem overlay_push_error_cex :
    availOf pPushError = true ∧
    errTruthy pPushError.error = true ∧
    stStale.overlayShown = true ∧
    (wsOnMessage stStale pPushError).1.overlayShown = false :=
  ⟨rfl, rfl, rfl, rfl⟩

/-- C2, amended: after processing a well-formed payload (`containers`,
`connections` and `summary` present), the pull path shows the overlay iff
the payload is not available (`docker_available` explicitly false or a
truthy `error` field), and a transport failure also shows it; the push path,
however, shows the overlay iff `docker_available` is explicitly false — a
non-empty error field alone leaves the overlay hidden there. -/
theorem overlay_after_processing (st : AppState) (d : Option Bool)
    (e : Option String) (cs : List (String × Container)) (conns : List Conn)
    (sum : Summary) :
    (loadData st (some ⟨d, e, some cs, some conns, some sum⟩)).overlayShown
      = ((d == some false) || errTruthy e) ∧
    (wsOnMessage st ⟨d, e, some cs, some conns, some sum⟩).1.overlayShown
      = (d == some false) ∧
    (loadData st none).overlayShown = true := by
  have hb1 : ∀ st', (applySnapshotBody st' ⟨d, e, some cs, some conns, some sum⟩).1.overlayShown = false :=
    fun st' => (applySnapshotBody_wellformed st' d e cs conns sum).1
  have hb2 : ∀ st', (applySnapshotBody st' ⟨d, e, some cs, some conns, some sum⟩).2 = false :=
    fun st' => (applySnapshotBody_wellformed st' d e cs conns sum).2
  refine ⟨?_, ?_, rfl⟩ <;>
    cases hd : (d == some false) <;> cases he : errTruthy e <;>
      simp [loadData, wsOnMessage, availOf, bne, updateUIForDockerStatus,
        showNoDataOverlay, hb1, hb2, hd, he]

/-- C3, counterexample: for an unavailable push payload whose unavailability
comes only from the error field, the mirror is indeed left unchanged but the
unavailability indicator is NOT set: the handler removes the overlay that
was previously shown. -/
theorem unavailable_indicator_cex :
    errTruthy pPushError2.error = true ∧
    stStale.overlayShown = true ∧
    (wsOnMessage stStale pPushError2).1.mirror = stStale.mirror ∧
    (wsOnMessage stStale pPushError2).1.overlayShown = false :=
  ⟨rfl, rfl, rfl, rfl⟩

/-- C3, amended: processing an unavailable payload (`docker_available`
explicitly false or a truthy error field) leaves the mirror and the rendered
container list exactly unchanged on both paths, as does a transport failure
of the pull request; the unavailability indicator is set on the pull path
and on a transport failure, but on the push path it ends up set exactly when
`docker_available` is explicitly false — unavailability due only to the
error field leaves it cleared there. -/
theorem unavailable_preserves_mirror (st : AppState) (p : Payload)
    (h : availOf p = false ∨ errTruthy p.error = true) :
    (loadData st (some p)).mirror = st.mirror ∧
    (loadData st (some p)).containerList = st.containerList ∧
    (loadData st (some p)).overlayShown = true ∧
    (loadData st none).mirror = st.mirror ∧
    (loadData st none).containerList = st.containerList ∧
    (loadData st none).overlayShown = true ∧
    (wsOnMessage st p).1.mirror = st.mirror ∧
    (wsOnMessage st p).1.containerList = st.containerList ∧
    (wsOnMessage st p).1.overlayShown = !availOf p := by
  have hcond : (availOf p && !errTruthy p.error) = false := by
    rcases h with h | h <;> simp [h]
  refine ⟨?_, ?_, ?_, rfl, rfl, rfl, ?_, ?_, ?_⟩ <;>
    simp [loadData, wsOnMessage, hcond, updateUIForDockerStatus, showNoDataOverlay]

/-- Witness for C3 (amended): the declared-unavailable payload `pDown`
applied at the non-empty state `stFit`. -/
theorem unavailable_preserves_mirror_witness :
    (loadData stFit (some pDown)).mirror = stFit.mirror ∧
    (loadData stFit (some pDown)).containerList = stFit.containerList ∧
    (loadData stFit (some pDown)).overlayShown = true ∧
    (loadData stFit none).mirror = stFit.mirror ∧
    (loadData stFit none).containerList = stFit.containerList ∧
    (loadData stFit none).overlayShown = true ∧
    (wsOnMessage stFit pDown).1.mirror = stFit.mirror ∧
    (wsOnMessage stFit pDown).1.containerList = stFit.containerList ∧
    (wsOnMessage stFit pDown).1.overlayShown = !availOf pDown :=
  unavailable_preserves_mirror stFit pDown (Or.inl rfl)

end DockerMapper
